import Mathlib

/-!
Shallow embedding of the client-side pagination / cache-synchronization code
of the repository (`src/components/memory-graph-dialog.tsx` and the chat
visibility hook in `src/unnamed/part_000`), together with theorems settling
the specification claims about it.

Conventions of the embedding:
- JS `string | null` values become `Option String`; JS truthiness of such a
  value (`!x`) is `none` or `some ""`.
- network interactions are passed in explicitly as a `NetOutcome`
  (transport failure, non-success HTTP status, or a parsed success body), and
  each operation additionally reports the request it issued, if any, so that
  "no network call is made" is a provable statement.
- React `useState` cells of the dialog component are collected into a state
  record; each callback of the component becomes a state-transition function.
-/

/-- Document payload of the memory graph; the code treats it as opaque, so an
identity field suffices. -/
structure Doc where
  id : Nat
deriving DecidableEq

/-- Pagination descriptor as returned by the documents endpoint:
`{ currentPage, totalPages, totalItems, limit }`. -/
structure PageDescriptor where
  currentPage : Nat
  totalPages : Nat
  totalItems : Nat
  limit : Nat
deriving DecidableEq

/-- Parsed body of a successful documents response: `{ documents, pagination }`. -/
structure FetchResult where
  documents : List Doc
  pagination : PageDescriptor
deriving DecidableEq

/-- Outcome of one network interaction with the documents endpoint. -/
inductive NetOutcome where
  | transportFailure
  | httpError
  | success (data : FetchResult)
deriving DecidableEq

/-- Request issued by `fetchDocuments` against `/api/documents`
(the fields of the POST body that vary). -/
structure Request where
  page : Nat
  limit : Nat
  chatId : String
deriving DecidableEq

/-- Empty result shape `{ documents: [], pagination: { currentPage: 1,
totalPages: 0, totalItems: 0, limit } }` that `fetchDocuments` returns when no
chat is selected or the fetch fails. -/
def emptyFetchResult (limit : Nat) : FetchResult :=
  { documents := [],
    pagination := { currentPage := 1, totalPages := 0, totalItems := 0, limit := limit } }

/-- JS truthiness test of a `string | null` value: `null`/`undefined` and the
empty string are falsy. -/
def strFalsy : Option String → Bool
  | none => true
  | some v => v == ""

/-- Embedding of `fetchDocuments(page, limit)` from
`src/components/memory-graph-dialog.tsx` (lines 62-107). If no chat is
selected it returns the empty shape without issuing a request; on transport
failure or a non-ok status it logs and returns the empty shape; otherwise it
returns the parsed body. The second component is the request issued, if any. -/
def fetchDocuments : Option String → Nat → Nat → NetOutcome → FetchResult × Option Request
  | none, _, limit, _ => (emptyFetchResult limit, none)
  | some cid, page, limit, net =>
    if cid == "" then (emptyFetchResult limit, none)
    else
      match net with
      | NetOutcome.transportFailure =>
          (emptyFetchResult limit, some { page := page, limit := limit, chatId := cid })
      | NetOutcome.httpError =>
          (emptyFetchResult limit, some { page := page, limit := limit, chatId := cid })
      | NetOutcome.success data =>
          (data, some { page := page, limit := limit, chatId := cid })

/-- State cells of `MemoryGraphDialog` that the document loader owns
(lines 47-55 of the source), plus the selected chat id the fetch closes over. -/
structure LoaderState where
  documents : List Doc
  isLoading : Bool
  isLoadingMore : Bool
  error : Option String
  currentPage : Nat
  hasMore : Bool
  totalLoaded : Nat
  selectedChatId : Option String
deriving DecidableEq

/-- Initial values of the loader state cells: `useState([])`,
`useState(false)`, `useState(false)`, `useState(null)`, `useState(1)`,
`useState(true)`, `useState(0)`, `useState(null)`. -/
def initialLoaderState : LoaderState :=
  { documents := [], isLoading := false, isLoadingMore := false, error := none,
    currentPage := 1, hasMore := true, totalLoaded := 0, selectedChatId := none }

/-- First two updates of `loadInitialDocuments`: `setIsLoading(true);
setError(null)` — the state while the initial request is outstanding. -/
def loadInitialBegin (s : LoaderState) : LoaderState :=
  { s with isLoading := true, error := none }

/-- Embedding of `loadInitialDocuments` (lines 110-124): flags loading and
clears the error, fetches page 1 with limit 500, then replaces `documents`
wholesale, recomputes `totalLoaded`, resets `currentPage` to 1, derives
`hasMore` from the returned descriptor, and finally clears the loading flag.
The `catch` branch of the source is unreachable here because `fetchDocuments`
never throws and the result is well-typed. -/
def loadInitialDocuments (s : LoaderState) (net : NetOutcome) : LoaderState × Option Request :=
  let s1 := loadInitialBegin s
  let r := fetchDocuments s1.selectedChatId 1 500 net
  let data := r.1
  ({ s1 with
      documents := data.documents,
      totalLoaded := data.documents.length,
      currentPage := 1,
      hasMore := decide (data.pagination.currentPage < data.pagination.totalPages),
      isLoading := false }, r.2)

/-- Embedding of `loadMoreDocuments` (lines 181-203): returns immediately when
`isLoadingMore` is set or `hasMore` is cleared; otherwise fetches
`currentPage + 1` with limit 100, appends on a non-empty result (updating
`totalLoaded`, `currentPage` and `hasMore` from the descriptor) and forces
`hasMore := false` on an empty one, clearing `isLoadingMore` at the end. -/
def loadMoreDocuments (s : LoaderState) (net : NetOutcome) : LoaderState × Option Request :=
  if s.isLoadingMore || !s.hasMore then (s, none)
  else
    let s1 := { s with isLoadingMore := true }
    let nextPage := s.currentPage + 1
    let r := fetchDocuments s1.selectedChatId nextPage 100 net
    let data := r.1
    let s2 :=
      if 0 < data.documents.length then
        { s1 with
            documents := s1.documents ++ data.documents,
            totalLoaded := s1.totalLoaded + data.documents.length,
            currentPage := nextPage,
            hasMore := decide (data.pagination.currentPage < data.pagination.totalPages) }
      else
        { s1 with hasMore := false }
    ({ s2 with isLoadingMore := false }, r.2)

/-- Runs a sequence of `loadMoreDocuments` calls, feeding each call the next
network outcome of the list. -/
def runLoadMores (s : LoaderState) (nets : List NetOutcome) : LoaderState :=
  nets.foldl (fun st n => (loadMoreDocuments st n).1) s

/-- Selectable chat/channel entry of the selection source (`interface Chat`
in the dialog source). `createdAt` holds the parsed epoch time of
`new Date(createdAt).getTime()`; `none` models an unparsable timestamp
(`NaN`). -/
structure Chat where
  id : String
  title : String
  createdAt : Option Int
deriving DecidableEq

/-- Trims leading and trailing whitespace from a character list, the
behaviour of `String.prototype.trim`. -/
def trimChars (l : List Char) : List Char :=
  ((l.dropWhile Char.isWhitespace).reverse.dropWhile Char.isWhitespace).reverse

/-- Title normalization `(title || '').trim().toLowerCase()` used by the
chat filter of `loadWorkspaceAndChats`. -/
def normalizeTitle (s : String) : String :=
  String.mk ((trimChars s.data).map Char.toLower)

/-- Predicate of the filter step: keep a chat unless its normalized title is
the reserved name `profile`. -/
def chatTitleKept (c : Chat) : Bool :=
  !(normalizeTitle c.title == "profile")

/-- Sign test of the sort comparator of `loadWorkspaceAndChats`:
`chatCmpLe a b` holds when the comparator value for `(a, b)` is at most zero,
that is when `a` may stay before `b`. The comparator returns `0` when either
timestamp is `NaN`, and `bTime - aTime` (descending) otherwise. -/
def chatCmpLe (a b : Chat) : Bool :=
  match a.createdAt, b.createdAt with
  | some ta, some tb => decide (tb ≤ ta)
  | _, _ => true

/-- Inserts `x` into `l` directly before the first element `y` with
`chatCmpLe x y`; the insertion step of a stable insertion sort. -/
def insertChat (x : Chat) : List Chat → List Chat
  | [] => [x]
  | y :: ys => if chatCmpLe x y then x :: y :: ys else y :: insertChat x ys

/-- Stable sort by the comparator of `loadWorkspaceAndChats`.
`Array.prototype.sort` is stable but its algorithm is not specified by the
language, so a stable insertion sort stands for it: elements the comparator
ties (value `0`, i.e. `chatCmpLe` in both directions) keep their relative
order. -/
def sortChats : List Chat → List Chat
  | [] => []
  | x :: xs => insertChat x (sortChats xs)

/-- The `filtered` list of `loadWorkspaceAndChats` (lines 138-145): reserved
titles dropped, then the stable sort by descending parsed creation time. -/
def filterAndSortChats (list : List Chat) : List Chat :=
  sortChats (list.filter chatTitleKept)

/-- Parsed response of `/api/history?workspaceId=...&limit=100`; `chats` is
`none` when the body has no array under `chats`
(the `Array.isArray` test of line 136 fails). -/
structure ChatsResponse where
  ok : Bool
  chats : Option (List Chat)
deriving DecidableEq

/-- Outcome of the history fetch of `loadWorkspaceAndChats`. -/
inductive ChatsNetOutcome where
  | transportFailure
  | resp (r : ChatsResponse)
deriving DecidableEq

/-- Request issued against the history endpoint. -/
structure HistoryRequest where
  workspaceId : String
  limit : Nat
deriving DecidableEq

/-- State cells of the dialog owned by the selection source:
`chats` and `selectedChatId`. -/
structure SelState where
  chats : List Chat
  selectedChatId : Option String
deriving DecidableEq

/-- Selection update of lines 149-152: only when the filtered list is
non-empty, select the caller-preferred id if present
(`defaultChatId && filtered.find(...)`, `?.id ?? filtered[0].id`),
else the first entry; an empty list leaves the selection untouched. -/
def pickSelection (filtered : List Chat) (defaultChatId : Option String)
    (prior : Option String) : Option String :=
  match filtered with
  | [] => prior
  | c0 :: _ =>
    let preferred : Option Chat :=
      match defaultChatId with
      | none => none
      | some d => if d == "" then none else filtered.find? (fun c => c.id == d)
    some ((preferred.map Chat.id).getD c0.id)

/-- Embedding of `loadWorkspaceAndChats` (lines 126-156): bails without a
request when the workspace id is falsy; bails (state untouched) on a
transport failure or a non-ok status; otherwise filters and sorts the
returned chat list, stores it, and updates the selection per
`pickSelection`. -/
def loadWorkspaceAndChats : Option String → Option String → ChatsNetOutcome → SelState →
    SelState × Option HistoryRequest
  | none, _, _, s => (s, none)
  | some w, defaultChatId, net, s =>
    if w == "" then (s, none)
    else
      let req : HistoryRequest := { workspaceId := w, limit := 100 }
      match net with
      | ChatsNetOutcome.transportFailure => (s, some req)
      | ChatsNetOutcome.resp r =>
        if !r.ok then (s, some req)
        else
          let list := r.chats.getD []
          let filtered := filterAndSortChats list
          ({ chats := filtered,
             selectedChatId := pickSelection filtered defaultChatId s.selectedChatId },
           some req)

/-- Chat record of the cached `/api/history` list as the visibility hook
reads it: id, recorded visibility, and an optional owning workspace id. -/
structure HistChat where
  id : String
  visibility : String
  workspaceId : Option String
deriving DecidableEq

/-- Cached history list `cache.get('/api/history')?.data`. -/
structure ChatHistory where
  chats : List HistChat
deriving DecidableEq

/-- Embedding of the `visibilityType` memo of `useChatVisibility`
(`src/unnamed/part_000`, lines 33-38): without a cached history the local
fallback wins; with one, the entry of the chat wins, defaulting to
`private` when the list lacks the chat. -/
def visibilityType (history : Option ChatHistory) (chatId : String)
    (localVisibility : String) : String :=
  match history with
  | none => localVisibility
  | some h =>
    match h.chats.find? (fun chat => chat.id == chatId) with
    | none => "private"
    | some chat => chat.visibility

/-- Initial value of the local fallback cell: `useSWR(..., { fallbackData:
initialVisibilityType })`. -/
def initialLocalVisibility (initialVisibilityType : String) : String :=
  initialVisibilityType

/-- JS `a || b` over `string | null` values: a falsy left operand
(null / empty string) yields the right operand. -/
def jsOrStr : Option String → Option String → Option String
  | none, b => b
  | some v, b => if v == "" then b else some v

/-- Workspace resolution of `setVisibilityType` (lines 44-46 of the hook):
`workspaceId || history?.chats.find(c => c.id === chatId)?.workspaceId ||
localStorage.getItem('sunsetLastWorkspace')`. -/
def resolveChatWorkspaceId (workspaceId : Option String) (history : Option ChatHistory)
    (chatId : String) (lastWorkspace : Option String) : Option String :=
  jsOrStr workspaceId
    (jsOrStr
      ((history.bind (fun h => h.chats.find? (fun chat => chat.id == chatId))).bind
        (fun chat => chat.workspaceId))
      lastWorkspace)

/-- Observable effects of `setVisibilityType`, in issue order: the optimistic
local fallback write, the invalidation of the paginated history key of the
resolved workspace, and the fire-and-forget persistence call
(`updateChatVisibility`, issued without `await`, so its response is never
consumed). -/
inductive VisEffect where
  | setLocal (value : String)
  | invalidatePaginationKey (workspaceId : String)
  | persistVisibility (chatId : String) (value : String)
deriving DecidableEq

/-- Embedding of `setVisibilityType` (lines 40-56 of the hook) as the ordered
list of effects it issues: first the local fallback update, then — only when
a workspace resolves to a truthy value — the cache invalidation of that
workspace's paginated key, and last the non-blocking persistence request.
The function's return does not depend on any response of the persistence
call, which models its fire-and-forget issue. -/
def setVisibilityType (chatId : String) (workspaceId : Option String)
    (history : Option ChatHistory) (lastWorkspace : Option String)
    (updatedVisibilityType : String) : List VisEffect :=
  let chatWorkspaceId := resolveChatWorkspaceId workspaceId history chatId lastWorkspace
  let invalidation : List VisEffect :=
    match chatWorkspaceId with
    | none => []
    | some w => if w == "" then [] else [VisEffect.invalidatePaginationKey w]
  VisEffect.setLocal updatedVisibilityType ::
    (invalidation ++ [VisEffect.persistVisibility chatId updatedVisibilityType])

lemma fetchDocuments_request_eq (chat : Option String) (page limit : Nat) (net : NetOutcome)
    (r : Request) (h : (fetchDocuments chat page limit net).2 = some r) :
    r.page = page ∧ r.limit = limit := by
  cases chat with
  | none => simp [fetchDocuments] at h
  | some cid =>
    by_cases hc : (cid == "") = true
    · simp [fetchDocuments, hc] at h
    · cases net <;> simp only [fetchDocuments, hc, Bool.false_eq_true, if_false,
        Option.some.injEq] at h <;> simp [← h]

lemma loadMore_documents_length_le (s : LoaderState) (net : NetOutcome) :
    s.documents.length ≤ (loadMoreDocuments s net).1.documents.length := by
  unfold loadMoreDocuments
  by_cases hg : (s.isLoadingMore || !s.hasMore) = true
  · simp [hg]
  · simp only [hg, Bool.false_eq_true, if_false]
    by_cases hp : 0 < (fetchDocuments s.selectedChatId (s.currentPage + 1) 100 net).1.documents.length
    · simp [hp]
    · simp [hp]

/-- C4 (amended): across any sequence of `loadMoreDocuments` calls, whatever
their network outcomes, the length of `documents` never decreases; the
wholesale replacement of `loadInitialDocuments` is what can shrink it. -/
theorem C4_loadMore_monotonic (s : LoaderState) (nets : List NetOutcome) :
    s.documents.length ≤ (runLoadMores s nets).documents.length := by
  induction nets generalizing s with
  | nil => simp [runLoadMores]
  | cons n ns ih =>
    calc s.documents.length ≤ (loadMoreDocuments s n).1.documents.length :=
          loadMore_documents_length_le s n
      _ ≤ (runLoadMores (loadMoreDocuments s n).1 ns).documents.length :=
          ih (loadMoreDocuments s n).1
      _ = (runLoadMores s (n :: ns)).documents.length := by simp [runLoadMores]

/-- State with one document already loaded for chat `c1`, used as the
concrete run refuting C3 and C4 as stated. -/
def priorLoadedState : LoaderState :=
  { documents := [{ id := 0 }], isLoading := false, isLoadingMore := false, error := none,
    currentPage := 1, hasMore := true, totalLoaded := 1, selectedChatId := some "c1" }

/-- C4 (counterexample): with one document loaded and the selection key
unchanged, a `loadInitialDocuments` run whose fetch hits a transport failure
shrinks `documents` from length 1 to length 0 — the length is not
monotonically non-decreasing across sequences that include `loadInitial`. -/
theorem C4_counterexample :
    (loadInitialDocuments priorLoadedState NetOutcome.transportFailure).1.documents.length <
      priorLoadedState.documents.length := by decide

/-- C3 (counterexample): on a transport failure of the underlying fetch,
`loadInitialDocuments` neither records an error (the `error` field stays
`none`, so no errored state is entered) nor preserves the previously loaded
items (they are replaced by the empty list). -/
theorem C3_counterexample :
    (loadInitialDocuments priorLoadedState NetOutcome.transportFailure).1.error = none ∧
    (loadInitialDocuments priorLoadedState NetOutcome.transportFailure).1.documents ≠
      priorLoadedState.documents := by decide

/-- C3 (amended): when the underlying fetch of a `loadInitialDocuments` run
fails (transport failure or non-success status), `fetchDocuments` normalizes
the failure to the empty result, so the run completes its success path:
`error` ends `none` (the errored state is never entered on a fetch failure),
the items are replaced by the empty list, `hasMore` is cleared, and the
loading flag is cleared. -/
theorem C3_loadInitial_fetch_failure (s : LoaderState) (net : NetOutcome)
    (h : net = NetOutcome.transportFailure ∨ net = NetOutcome.httpError) :
    (loadInitialDocuments s net).1.error = none ∧
    (loadInitialDocuments s net).1.documents = [] ∧
    (loadInitialDocuments s net).1.hasMore = false ∧
    (loadInitialDocuments s net).1.isLoading = false := by
  have hempty : (fetchDocuments s.selectedChatId 1 500 net).1 = emptyFetchResult 500 := by
    cases s.selectedChatId with
    | none => simp [fetchDocuments]
    | some cid =>
      by_cases hc : (cid == "") = true
      · simp [fetchDocuments, hc]
      · rcases h with h | h <;> subst h <;> simp [fetchDocuments, hc]
  simp [loadInitialDocuments, loadInitialBegin, hempty, emptyFetchResult]

/-- C3 (amended, witness): the concrete failing run from `priorLoadedState`. -/
theorem C3_loadInitial_fetch_failure_witness :
    (loadInitialDocuments priorLoadedState NetOutcome.transportFailure).1.error = none ∧
    (loadInitialDocuments priorLoadedState NetOutcome.transportFailure).1.documents = [] ∧
    (loadInitialDocuments priorLoadedState NetOutcome.transportFailure).1.hasMore = false ∧
    (loadInitialDocuments priorLoadedState NetOutcome.transportFailure).1.isLoading = false :=
  C3_loadInitial_fetch_failure priorLoadedState NetOutcome.transportFailure (Or.inl rfl)

/-- C5: `fetchDocuments` is total and normalizing — with no selection key it
returns the empty shape with the zeroed descriptor and issues no request; on
transport failure or a non-success status it returns the same shape (request
issued); and in every case the value returned is either the empty shape or
the successful body, never an escaping exception. -/
theorem C5_fetchDocuments_total (page limit : Nat) (cid : String) (hcid : cid ≠ "") :
    (∀ n : NetOutcome, fetchDocuments none page limit n = (emptyFetchResult limit, none)) ∧
    emptyFetchResult limit =
      { documents := [],
        pagination := { currentPage := 1, totalPages := 0, totalItems := 0, limit := limit } } ∧
    fetchDocuments (some cid) page limit NetOutcome.transportFailure =
      (emptyFetchResult limit, some { page := page, limit := limit, chatId := cid }) ∧
    fetchDocuments (some cid) page limit NetOutcome.httpError =
      (emptyFetchResult limit, some { page := page, limit := limit, chatId := cid }) ∧
    (∀ (chat : Option String) (n : NetOutcome),
      (fetchDocuments chat page limit n).1 = emptyFetchResult limit ∨
      ∃ d, n = NetOutcome.success d ∧ (fetchDocuments chat page limit n).1 = d) := by
  have hc : (cid == "") = false := beq_eq_false_iff_ne.mpr hcid
  refine ⟨fun n => rfl, rfl, by simp [fetchDocuments, hc], by simp [fetchDocuments, hc], ?_⟩
  intro chat n
  cases chat with
  | none => exact Or.inl rfl
  | some c =>
    by_cases hce : (c == "") = true
    · exact Or.inl (by simp [fetchDocuments, hce])
    · cases n with
      | transportFailure => exact Or.inl (by simp [fetchDocuments, hce])
      | httpError => exact Or.inl (by simp [fetchDocuments, hce])
      | success d => exact Or.inr ⟨d, rfl, by simp [fetchDocuments, hce]⟩

/-- C5 (witness): the concrete transport-failure case at chat `c1`. -/
theorem C5_fetchDocuments_total_witness :
    fetchDocuments (some "c1") 3 7 NetOutcome.transportFailure =
      (emptyFetchResult 7, some { page := 3, limit := 7, chatId := "c1" }) :=
  (C5_fetchDocuments_total 3 7 "c1" (by decide)).2.2.1

/-- C2: `loadMoreDocuments` is a strict no-op (state unchanged, no request)
when `isLoadingMore` is set or `hasMore` is cleared; otherwise it requests
`currentPage + 1` at limit 100 — strictly narrower than any request
`loadInitialDocuments` issues — and appends the returned documents,
increments the page and recomputes `hasMore` from the descriptor on a
non-empty result, while an empty result forces `hasMore := false` (whatever
the descriptor said) and leaves `documents` unchanged. -/
theorem C2_loadMore_contract (s : LoaderState) (net : NetOutcome) :
    (s.isLoadingMore = true ∨ s.hasMore = false → loadMoreDocuments s net = (s, none)) ∧
    (s.isLoadingMore = false → s.hasMore = true →
      ∀ cid, s.selectedChatId = some cid → cid ≠ "" →
        (loadMoreDocuments s net).2 =
          some { page := s.currentPage + 1, limit := 100, chatId := cid }) ∧
    (∀ (s2 : LoaderState) (n2 : NetOutcome) (r r2 : Request),
      (loadMoreDocuments s net).2 = some r →
      (loadInitialDocuments s2 n2).2 = some r2 → r.limit < r2.limit) ∧
    (s.isLoadingMore = false → s.hasMore = true →
      ∀ data, (fetchDocuments s.selectedChatId (s.currentPage + 1) 100 net).1 = data →
        (data.documents ≠ [] →
          (loadMoreDocuments s net).1.documents = s.documents ++ data.documents ∧
          (loadMoreDocuments s net).1.currentPage = s.currentPage + 1 ∧
          (loadMoreDocuments s net).1.totalLoaded = s.totalLoaded + data.documents.length ∧
          ((loadMoreDocuments s net).1.hasMore = true ↔
            data.pagination.currentPage < data.pagination.totalPages)) ∧
        (data.documents = [] →
          (loadMoreDocuments s net).1.documents = s.documents ∧
          (loadMoreDocuments s net).1.hasMore = false)) := by
  refine ⟨?_, ?_, ?_, ?_⟩
  · intro h
    have hg : (s.isLoadingMore || !s.hasMore) = true := by
      rcases h with h | h <;> simp [h]
    simp [loadMoreDocuments, hg]
  · intro hm hh cid hcid hne
    have hc : (cid == "") = false := beq_eq_false_iff_ne.mpr hne
    cases net <;> simp [loadMoreDocuments, hm, hh, fetchDocuments, hcid, hc]
  · intro s2 n2 r r2 hr hr2
    have h1 : r.limit = 100 := by
      by_cases hg : (s.isLoadingMore || !s.hasMore) = true
      · simp [loadMoreDocuments, hg] at hr
      · simp only [loadMoreDocuments, hg, Bool.false_eq_true, if_false] at hr
        exact (fetchDocuments_request_eq _ _ _ _ _ hr).2
    have h2 : r2.limit = 500 := by
      have : (fetchDocuments (loadInitialBegin s2).selectedChatId 1 500 n2).2 = some r2 := hr2
      exact (fetchDocuments_request_eq _ _ _ _ _ this).2
    omega
  · intro hm hh data hdata
    have hg : (s.isLoadingMore || !s.hasMore) = false := by simp [hm, hh]
    constructor
    · intro hne
      have hp : 0 < data.documents.length := List.length_pos.mpr hne
      simp [loadMoreDocuments, hg, hm, hh, hdata, hp]
    · intro he
      have hp : ¬ 0 < data.documents.length := by simp [he]
      simp [loadMoreDocuments, hg, hm, hh, hdata, hp]

/-- C2 (witness): from `priorLoadedState` with an empty page-2 body whose
descriptor still advertises more pages, `hasMore` is forced to `false`. -/
theorem C2_loadMore_contract_witness :
    (loadMoreDocuments priorLoadedState (NetOutcome.success
        { documents := [],
          pagination := { currentPage := 2, totalPages := 5, totalItems := 900, limit := 100 } })).1.documents =
      priorLoadedState.documents ∧
    (loadMoreDocuments priorLoadedState (NetOutcome.success
        { documents := [],
          pagination := { currentPage := 2, totalPages := 5, totalItems := 900, limit := 100 } })).1.hasMore = false :=
  (((C2_loadMore_contract priorLoadedState _).2.2.2 rfl rfl _ rfl).2 rfl)

/-- Documents `d1 .. d500` of the consistency example of the spec. -/
def exampleDocs : List Doc := (List.range 500).map Doc.mk

/-- Fresh loader state with chat `c1` selected. -/
def exampleState : LoaderState := { initialLoaderState with selectedChatId := some "c1" }

/-- Successful body `{ documents: [d1..d500], pagination: { currentPage: 1,
totalPages: 2, totalItems: 600, limit: 500 } }`. -/
def exampleNet : NetOutcome :=
  NetOutcome.success
    { documents := exampleDocs,
      pagination := { currentPage := 1, totalPages := 2, totalItems := 600, limit := 500 } }

/-- C6: `loadInitialDocuments` begins by setting `isLoading` and clearing the
error, requests page 1 at limit 500 (strictly wider than any request
`loadMoreDocuments` issues), and on success replaces the item list wholesale,
resets the page to 1 and derives `hasMore` from the descriptor; the concrete
example run with 500 documents and descriptor `(1, 2, 600, 500)` ends with
500 items, page 1 and `hasMore = true`. -/
theorem C6_loadInitial_success (s : LoaderState) (net : NetOutcome) :
    (loadInitialBegin s).isLoading = true ∧
    (loadInitialBegin s).error = none ∧
    (loadInitialBegin s).documents = s.documents ∧
    (∀ cid, s.selectedChatId = some cid → cid ≠ "" →
      (loadInitialDocuments s net).2 = some { page := 1, limit := 500, chatId := cid }) ∧
    (∀ (s2 : LoaderState) (n2 : NetOutcome) (r r2 : Request),
      (loadInitialDocuments s net).2 = some r →
      (loadMoreDocuments s2 n2).2 = some r2 → r2.limit < r.limit) ∧
    (∀ data, net = NetOutcome.success data → strFalsy s.selectedChatId = false →
      (loadInitialDocuments s net).1.documents = data.documents ∧
      (loadInitialDocuments s net).1.error = none ∧
      (loadInitialDocuments s net).1.isLoading = false ∧
      (loadInitialDocuments s net).1.currentPage = 1 ∧
      (loadInitialDocuments s net).1.totalLoaded = data.documents.length ∧
      ((loadInitialDocuments s net).1.hasMore = true ↔
        data.pagination.currentPage < data.pagination.totalPages)) ∧
    (loadInitialDocuments exampleState exampleNet).1.documents.length = 500 ∧
    (loadInitialDocuments exampleState exampleNet).1.currentPage = 1 ∧
    (loadInitialDocuments exampleState exampleNet).1.hasMore = true := by
  refine ⟨rfl, rfl, rfl, ?_, ?_, ?_, ?_, ?_, ?_⟩
  · intro cid hcid hne
    have hc : (cid == "") = false := beq_eq_false_iff_ne.mpr hne
    cases net <;>
      simp [loadInitialDocuments, loadInitialBegin, fetchDocuments, hcid, hc]
  · intro s2 n2 r r2 hr hr2
    have h1 : r.limit = 500 :=
      (fetchDocuments_request_eq (loadInitialBegin s).selectedChatId 1 500 net r hr).2
    have h2 : r2.limit = 100 := by
      by_cases hg : (s2.isLoadingMore || !s2.hasMore) = true
      · simp [loadMoreDocuments, hg] at hr2
      · simp only [loadMoreDocuments, hg, Bool.false_eq_true, if_false] at hr2
        exact (fetchDocuments_request_eq _ _ _ _ _ hr2).2
    omega
  · intro data hnet hsel
    subst hnet
    obtain ⟨cid, hcid, hne⟩ : ∃ cid, s.selectedChatId = some cid ∧ (cid == "") = false := by
      cases hsc : s.selectedChatId with
      | none => simp [strFalsy, hsc] at hsel
      | some c =>
        refine ⟨c, rfl, ?_⟩
        simpa [strFalsy, hsc] using hsel
    refine ⟨?_, rfl, rfl, rfl, ?_, ?_⟩ <;>
      simp [loadInitialDocuments, loadInitialBegin, fetchDocuments, hcid, hne]
  · simp [loadInitialDocuments, loadInitialBegin, exampleState, exampleNet, fetchDocuments,
      initialLoaderState, exampleDocs]
  · rfl
  · rfl

/-- C6 (witness): the concrete example run issues the page-1, limit-500
request for chat `c1`. -/
theorem C6_loadInitial_success_witness :
    (loadInitialDocuments exampleState exampleNet).2 =
      some { page := 1, limit := 500, chatId := "c1" } :=
  (C6_loadInitial_success exampleState exampleNet).2.2.2.1 "c1" rfl (by decide)

/-- C10: a freshly initialized loader has `hasMore = true`,
`isLoadingMore = false`, `currentPage = 1` and no documents, so a
`loadMoreDocuments` call in that state passes the no-op guard and issues a
request for page 2 (at limit 100) although nothing has been loaded yet. -/
theorem C10_initial_loadMore_unblocked (cid : String) (hne : cid ≠ "") (net : NetOutcome) :
    initialLoaderState.hasMore = true ∧
    initialLoaderState.isLoadingMore = false ∧
    initialLoaderState.currentPage = 1 ∧
    initialLoaderState.documents = [] ∧
    (loadMoreDocuments { initialLoaderState with selectedChatId := some cid } net).2 =
      some { page := 2, limit := 100, chatId := cid } := by
  have hc : (cid == "") = false := beq_eq_false_iff_ne.mpr hne
  refine ⟨rfl, rfl, rfl, rfl, ?_⟩
  cases net <;>
    simp [loadMoreDocuments, initialLoaderState, fetchDocuments, hc]

/-- C10 (witness): the concrete run at chat `c1`. -/
theorem C10_initial_loadMore_unblocked_witness :
    (loadMoreDocuments { initialLoaderState with selectedChatId := some "c1" }
        NetOutcome.transportFailure).2 =
      some { page := 2, limit := 100, chatId := "c1" } :=
  (C10_initial_loadMore_unblocked "c1" (by decide) NetOutcome.transportFailure).2.2.2.2

lemma mem_insertChat (x y : Chat) (l : List Chat) :
    y ∈ insertChat x l ↔ y = x ∨ y ∈ l := by
  induction l with
  | nil => simp [insertChat]
  | cons z zs ih =>
    by_cases h : chatCmpLe x z = true
    · simp [insertChat, h]
    · simp only [insertChat, h, Bool.false_eq_true, if_false, List.mem_cons, ih]
      tauto

lemma mem_sortChats (y : Chat) (l : List Chat) : y ∈ sortChats l ↔ y ∈ l := by
  induction l with
  | nil => simp [sortChats]
  | cons x xs ih => simp [sortChats, mem_insertChat, ih]

lemma chatCmpLe_total (a b : Chat) : chatCmpLe a b = true ∨ chatCmpLe b a = true := by
  unfold chatCmpLe
  cases ha : a.createdAt <;> cases hb : b.createdAt <;> simp
  omega

lemma chatCmpLe_trans_mid (a b c : Chat) (hb : b.createdAt.isSome = true)
    (h1 : chatCmpLe a b = true) (h2 : chatCmpLe b c = true) : chatCmpLe a c = true := by
  cases hbb : b.createdAt with
  | none => rw [hbb] at hb; simp at hb
  | some tb =>
    unfold chatCmpLe at h1 h2 ⊢
    cases ha : a.createdAt with
    | none => simp
    | some ta =>
      cases hcc : c.createdAt with
      | none => simp
      | some tc =>
        rw [ha, hbb] at h1
        rw [hbb, hcc] at h2
        simp at h1 h2 ⊢
        omega

lemma pairwise_insertChat (x : Chat) (l : List Chat)
    (hl : ∀ c ∈ l, c.createdAt.isSome = true)
    (h : l.Pairwise (fun a b => chatCmpLe a b = true)) :
    (insertChat x l).Pairwise (fun a b => chatCmpLe a b = true) := by
  induction l with
  | nil => simp [insertChat]
  | cons y ys ih =>
    rcases List.pairwise_cons.mp h with ⟨hy, hys⟩
    by_cases hxy : chatCmpLe x y = true
    · simp only [insertChat, hxy, if_true]
      refine List.pairwise_cons.mpr ⟨?_, h⟩
      intro z hz
      rcases List.mem_cons.mp hz with rfl | hz
      · exact hxy
      · exact chatCmpLe_trans_mid x y z (hl y (List.mem_cons_self y ys)) hxy (hy z hz)
    · simp only [insertChat, hxy, Bool.false_eq_true, if_false]
      refine List.pairwise_cons.mpr
        ⟨?_, ih (fun c hc => hl c (List.mem_cons_of_mem y hc)) hys⟩
      intro z hz
      rcases (mem_insertChat x z ys).mp hz with rfl | hz
      · rcases chatCmpLe_total z y with h1 | h1
        · exact absurd h1 hxy
        · exact h1
      · exact hy z hz

lemma pairwise_sortChats (l : List Chat) (hl : ∀ c ∈ l, c.createdAt.isSome = true) :
    (sortChats l).Pairwise (fun a b => chatCmpLe a b = true) := by
  induction l with
  | nil => simp [sortChats]
  | cons x xs ih =>
    exact pairwise_insertChat x (sortChats xs)
      (fun c hc => hl c (List.mem_cons_of_mem x ((mem_sortChats c xs).mp hc)))
      (ih (fun c hc => hl c (List.mem_cons_of_mem x hc)))

lemma filter_nan_insertChat (x : Chat) (l : List Chat) :
    (insertChat x l).filter (fun c => c.createdAt.isNone) =
      if x.createdAt.isNone = true then x :: l.filter (fun c => c.createdAt.isNone)
      else l.filter (fun c => c.createdAt.isNone) := by
  induction l with
  | nil =>
    by_cases hx : x.createdAt.isNone = true <;> simp [insertChat, hx]
  | cons y ys ih =>
    by_cases hx : x.createdAt.isNone = true
    · have hxy : chatCmpLe x y = true := by
        unfold chatCmpLe
        cases hxx : x.createdAt with
        | none => cases y.createdAt <;> simp
        | some t => rw [hxx] at hx; simp at hx
      simp [insertChat, hxy, hx]
    · by_cases hxy : chatCmpLe x y = true
      · simp [insertChat, hxy, hx]
      · have hy : y.createdAt.isNone = false := by
          by_contra hcon
          have hyn : y.createdAt = none := by
            cases hyy : y.createdAt with
            | none => rfl
            | some t => rw [hyy] at hcon; simp at hcon
          have : chatCmpLe x y = true := by
            unfold chatCmpLe
            rw [hyn]
            cases x.createdAt <;> simp
          exact hxy this
        simp [insertChat, hxy, List.filter_cons, hy, ih, hx]

lemma filter_nan_sortChats (l : List Chat) :
    (sortChats l).filter (fun c => c.createdAt.isNone) =
      l.filter (fun c => c.createdAt.isNone) := by
  induction l with
  | nil => rfl
  | cons x xs ih =>
    by_cases hx : x.createdAt.isNone = true <;>
      simp [sortChats, filter_nan_insertChat, hx, ih, List.filter_cons]

/-- C8: with an absent workspace id, `loadWorkspaceAndChats` issues no request
and leaves its state (hence the chat list) untouched; on a successful load the
stored list is the filtered and sorted one, every surviving entry's normalized
title differs from the reserved name `profile`, the list is pairwise
descending by creation time whenever every timestamp parses, and entries with
unparsable timestamps keep their relative order through the (stable) sort. -/
theorem C8_selection_source_load (defaultChatId : Option String) (net : ChatsNetOutcome)
    (s : SelState) (w : String) (hw : w ≠ "") (r : ChatsResponse) (list : List Chat) :
    (loadWorkspaceAndChats none defaultChatId net s = (s, none)) ∧
    (net = ChatsNetOutcome.resp r → r.ok = true → r.chats = some list →
      (loadWorkspaceAndChats (some w) defaultChatId net s).1.chats =
        filterAndSortChats list) ∧
    (∀ c ∈ filterAndSortChats list, normalizeTitle c.title ≠ "profile") ∧
    ((∀ c ∈ list, c.createdAt.isSome = true) →
      (filterAndSortChats list).Pairwise (fun a b => chatCmpLe a b = true)) ∧
    ((sortChats (list.filter chatTitleKept)).filter (fun c => c.createdAt.isNone) =
      (list.filter chatTitleKept).filter (fun c => c.createdAt.isNone)) := by
  have hwc : (w == "") = false := beq_eq_false_iff_ne.mpr hw
  refine ⟨rfl, ?_, ?_, ?_, filter_nan_sortChats _⟩
  · intro hnet hok hchats
    subst hnet
    simp [loadWorkspaceAndChats, hwc, hok, hchats]
  · intro c hc
    have hmem : c ∈ list.filter chatTitleKept :=
      (mem_sortChats c (list.filter chatTitleKept)).mp hc
    have hkept : chatTitleKept c = true := (List.mem_filter.mp hmem).2
    simpa [chatTitleKept] using hkept
  · intro h
    exact pairwise_sortChats _ (fun c hc => h c (List.mem_filter.mp hc).1)

/-- Chat entry of the spec's selection example whose title is the reserved
name. -/
def chatProfile : Chat := { id := "a", title := "Profile", createdAt := some 1 }

/-- Chat entry of the spec's selection example that survives the filter. -/
def chatGeneral : Chat := { id := "b", title := "General", createdAt := some 2 }

/-- Chat list of the spec's selection example, `createdAt` of `b` later than
that of `a`. -/
def exampleChats : List Chat := [chatProfile, chatGeneral]

/-- C8 (witness): the concrete successful load of the example list stores its
filtered and sorted form. -/
theorem C8_selection_source_load_witness :
    (loadWorkspaceAndChats (some "w1") none
        (ChatsNetOutcome.resp { ok := true, chats := some exampleChats })
        { chats := [], selectedChatId := none }).1.chats =
      filterAndSortChats exampleChats :=
  (C8_selection_source_load none
      (ChatsNetOutcome.resp { ok := true, chats := some exampleChats })
      { chats := [], selectedChatId := none } "w1" (by decide)
      { ok := true, chats := some exampleChats } exampleChats).2.1 rfl rfl rfl

/-- C7: on a successful (re)load the stored selection is exactly
`pickSelection` of the filtered list; `pickSelection` selects the
caller-preferred id when it occurs in the filtered list, the first entry when
no usable preference was given or the preferred id is absent, and leaves the
prior selection (in particular, unset) untouched when the filtered list is
empty. -/
theorem C7_selection_policy (filtered : List Chat) (defaultChatId prior : Option String)
    (w : String) (hw : w ≠ "") (r : ChatsResponse) (list : List Chat) (s : SelState) :
    (r.ok = true → r.chats = some list →
      (loadWorkspaceAndChats (some w) defaultChatId (ChatsNetOutcome.resp r) s).1.selectedChatId =
        pickSelection (filterAndSortChats list) defaultChatId s.selectedChatId) ∧
    (∀ d c, defaultChatId = some d → d ≠ "" →
      filtered.find? (fun x => x.id == d) = some c →
      pickSelection filtered defaultChatId prior = some d) ∧
    (∀ c0 rest, filtered = c0 :: rest →
      (defaultChatId = none ∨
        (∃ d, defaultChatId = some d ∧ d ≠ "" ∧
          filtered.find? (fun x => x.id == d) = none)) →
      pickSelection filtered defaultChatId prior = some c0.id) ∧
    (filtered = [] → pickSelection filtered defaultChatId prior = prior) := by
  have hwc : (w == "") = false := beq_eq_false_iff_ne.mpr hw
  refine ⟨?_, ?_, ?_, ?_⟩
  · intro hok hchats
    simp [loadWorkspaceAndChats, hwc, hok, hchats]
  · intro d c hd hdne hfind
    subst hd
    have hdc : (d == "") = false := beq_eq_false_iff_ne.mpr hdne
    have hcd : c.id = d := by
      have := List.find?_some hfind
      simpa using this
    cases filtered with
    | nil => simp at hfind
    | cons c0 rest =>
      simp only [pickSelection, hdc, Bool.false_eq_true, if_false, hfind,
        Option.map_some, Option.getD_some]
      simp [hcd]
  · intro c0 rest hfi hcases
    subst hfi
    rcases hcases with hnone | ⟨d, hd, hdne, hfind⟩
    · subst hnone
      simp [pickSelection]
    · subst hd
      have hdc : (d == "") = false := beq_eq_false_iff_ne.mpr hdne
      simp [pickSelection, hdc, hfind]
  · intro hfi
    subst hfi
    rfl

/-- C7 (witness): the spec's example — of `[a: Profile, b: General]` only `b`
survives the filter and becomes the default selection of the load. -/
theorem C7_selection_policy_witness :
    (loadWorkspaceAndChats (some "w1") none
        (ChatsNetOutcome.resp { ok := true, chats := some exampleChats })
        { chats := [], selectedChatId := none }).1.selectedChatId = some "b" := by
  have h := (C7_selection_policy (filterAndSortChats exampleChats) none none "w1" (by decide)
      { ok := true, chats := some exampleChats } exampleChats
      { chats := [], selectedChatId := none }).1 rfl rfl
  rw [h]
  rfl

/-- C1: the visibility read resolves from the cached history list whenever
one is present — the entry of the chat wins over any local fallback, and a
present list lacking the chat yields the hardcoded `private` — while an
entirely absent list yields the local fallback, whose initial value is
`initialVisibilityType`. -/
theorem C1_visibility_read (h : ChatHistory) (chatId localVisibility ivt : String)
    (chat : HistChat) :
    (visibilityType none chatId localVisibility = localVisibility) ∧
    (h.chats.find? (fun c => c.id == chatId) = some chat →
      visibilityType (some h) chatId localVisibility = chat.visibility) ∧
    (h.chats.find? (fun c => c.id == chatId) = none →
      visibilityType (some h) chatId localVisibility = "private") ∧
    (initialLocalVisibility ivt = ivt) := by
  refine ⟨rfl, ?_, ?_, rfl⟩
  · intro hfind
    simp [visibilityType, hfind]
  · intro hfind
    simp [visibilityType, hfind]

/-- History list of the spec's visibility examples: it records chat `c1` as
public. -/
def exampleHistory : ChatHistory :=
  { chats := [{ id := "c1", visibility := "public", workspaceId := some "w1" }] }

/-- C1 (witness): with the example history present, the read of `c1` returns
`public` although the local fallback is `private`; with a history present
that lacks `c1`, the read returns `private` although the local fallback is
`public`. -/
theorem C1_visibility_read_witness :
    visibilityType (some exampleHistory) "c1" "private" = "public" ∧
    visibilityType (some { chats := [] }) "c1" "public" = "private" :=
  ⟨(C1_visibility_read exampleHistory "c1" "private" "private"
      { id := "c1", visibility := "public", workspaceId := some "w1" }).2.1 rfl,
   (C1_visibility_read { chats := [] } "c1" "public" "public"
      { id := "c1", visibility := "public", workspaceId := some "w1" }).2.2.1 rfl⟩

/-- C9: the visibility write issues, in order, the optimistic local fallback
update first and the fire-and-forget persistence request last; the owning
workspace is resolved by precedence — the explicit parameter when truthy,
else the workspace recorded on the chat's own history entry when truthy,
else the device-persisted last-used value — and the paginated-key
invalidation of the resolved workspace appears exactly when a truthy
workspace was resolved. -/
theorem C9_visibility_write (chatId v : String) (workspaceId lastWs : Option String)
    (history : Option ChatHistory) (w : String) (chat : HistChat) :
    ((setVisibilityType chatId workspaceId history lastWs v).head? =
      some (VisEffect.setLocal v)) ∧
    ((setVisibilityType chatId workspaceId history lastWs v).getLast? =
      some (VisEffect.persistVisibility chatId v)) ∧
    (workspaceId = some w → w ≠ "" →
      resolveChatWorkspaceId workspaceId history chatId lastWs = some w) ∧
    (strFalsy workspaceId = true →
      history.bind (fun hh => hh.chats.find? (fun c => c.id == chatId)) = some chat →
      chat.workspaceId = some w → w ≠ "" →
      resolveChatWorkspaceId workspaceId history chatId lastWs = some w) ∧
    (strFalsy workspaceId = true →
      strFalsy ((history.bind (fun hh => hh.chats.find? (fun c => c.id == chatId))).bind
        (fun c => c.workspaceId)) = true →
      resolveChatWorkspaceId workspaceId history chatId lastWs = lastWs) ∧
    (resolveChatWorkspaceId workspaceId history chatId lastWs = some w → w ≠ "" →
      setVisibilityType chatId workspaceId history lastWs v =
        [VisEffect.setLocal v, VisEffect.invalidatePaginationKey w,
         VisEffect.persistVisibility chatId v]) ∧
    (strFalsy (resolveChatWorkspaceId workspaceId history chatId lastWs) = true →
      setVisibilityType chatId workspaceId history lastWs v =
        [VisEffect.setLocal v, VisEffect.persistVisibility chatId v]) := by
  have hlast : ∀ (a p : VisEffect) (inv : List VisEffect),
      (a :: (inv ++ [p])).getLast? = some p := by
    intro a p inv
    rw [← List.cons_append, List.getLast?_concat]
  refine ⟨?_, ?_, ?_, ?_, ?_, ?_, ?_⟩
  · simp [setVisibilityType]
  · simp only [setVisibilityType]
    exact hlast _ _ _
  · intro hws hne2
    subst hws
    have hc : (w == "") = false := beq_eq_false_iff_ne.mpr hne2
    simp [resolveChatWorkspaceId, jsOrStr, hc]
  · intro hfal hfind hcw hne2
    have hc : (w == "") = false := beq_eq_false_iff_ne.mpr hne2
    have houter : ∀ b, jsOrStr workspaceId b = b := by
      intro b
      cases hws : workspaceId with
      | none => rfl
      | some u =>
        have hu : (u == "") = true := by
          rw [hws] at hfal
          simpa [strFalsy] using hfal
        simp [jsOrStr, hu]
    simp only [resolveChatWorkspaceId]
    rw [houter, hfind]
    simp [jsOrStr, hcw, hc]
  · intro hfal hinner
    have houter : ∀ b, jsOrStr workspaceId b = b := by
      intro b
      cases hws : workspaceId with
      | none => rfl
      | some u =>
        have hu : (u == "") = true := by
          rw [hws] at hfal
          simpa [strFalsy] using hfal
        simp [jsOrStr, hu]
    have hmid : ∀ b,
        jsOrStr ((history.bind (fun hh => hh.chats.find? (fun c => c.id == chatId))).bind
          (fun c => c.workspaceId)) b = b := by
      intro b
      cases hm : (history.bind (fun hh => hh.chats.find? (fun c => c.id == chatId))).bind
          (fun c => c.workspaceId) with
      | none => rfl
      | some u =>
        have hu : (u == "") = true := by
          rw [hm] at hinner
          simpa [strFalsy] using hinner
        simp [jsOrStr, hu]
    simp [resolveChatWorkspaceId, houter, hmid]
  · intro hres hne2
    have hc : (w == "") = false := beq_eq_false_iff_ne.mpr hne2
    simp [setVisibilityType, hres, hc]
  · intro hres
    cases hr : resolveChatWorkspaceId workspaceId history chatId lastWs with
    | none => simp [setVisibilityType, hr]
    | some u =>
      have hu : (u == "") = true := by
        rw [hr] at hres
        simpa [strFalsy] using hres
      simp [setVisibilityType, hr, hu]

/-- C9 (witness): with no explicit workspace, the workspace recorded on the
chat's history entry (`w1`) wins over the device-persisted value (`w2`), and
the write issues exactly the local update, the invalidation of `w1`, and the
persistence call, in that order. -/
theorem C9_visibility_write_witness :
    setVisibilityType "c1" none (some exampleHistory) (some "w2") "public" =
      [VisEffect.setLocal "public", VisEffect.invalidatePaginationKey "w1",
       VisEffect.persistVisibility "c1" "public"] := by
  have hres : resolveChatWorkspaceId none (some exampleHistory) "c1" (some "w2") = some "w1" :=
    (C9_visibility_write "c1" "public" none (some "w2") (some exampleHistory) "w1"
        { id := "c1", visibility := "public", workspaceId := some "w1" }).2.2.2.1
      rfl rfl rfl (by decide)
  exact (C9_visibility_write "c1" "public" none (some "w2") (some exampleHistory) "w1"
      { id := "c1", visibility := "public", workspaceId := some "w1" }).2.2.2.2.2.1
    hres (by decide)
